import Mathlib

/-!
Verification of the text-to-video repository's frame-duration normalization
(`utils.extend_video_frames`), model-configuration lookup (`config.get_model_config`),
and the FTP upload routines (`text_to_video.FTPUploader.upload`,
`upload_video_mcp.upload_video_to_ftp`, `upload_to_ftp.upload_file`).

Frames are embedded as elements of an arbitrary type `α` (the source holds
numpy arrays of shape (H, W, C); only the sequence structure matters here).
Python machine integers are embedded as `Nat` (all counts are non-negative
and no wraparound is reachable at the sizes involved).
-/

namespace TextToVideo

/-! ## Frame normalizer (`src/utils.py`, `extend_video_frames`) -/

/-- The repeat count computed at `src/utils.py:47`:
`loops_needed = (target_frames // current_frames) + 1` (Python floor division). -/
def loops_needed (current_frames target_frames : Nat) : Nat :=
  target_frames / current_frames + 1

/-- Embedding of `src/utils.py:28-53` (`extend_video_frames`).
The source computes `target_frames = int(target_duration * fps)`; the CLI passes
integer duration and fps (`argparse` with `type=int`), for which `int` truncation
is the identity, so the product is taken over `Nat`.
`np.tile(frames, (loops_needed, 1, 1, 1))` concatenates `loops_needed` copies of
the frame sequence along axis 0, i.e. `(List.replicate loops_needed frames).flatten`. -/
def extend_video_frames {α : Type} (frames : List α) (target_duration fps : Nat) : List α :=
  let current_frames := frames.length
  let target_frames := target_duration * fps
  if target_frames ≤ current_frames then
    frames.take target_frames
  else
    (List.replicate (loops_needed current_frames target_frames) frames).flatten.take
      target_frames

/-- The arithmetic fault `extend_video_frames` can raise: Python floor division
`target_frames // current_frames` raises `ZeroDivisionError` when
`current_frames == 0`. -/
inductive NormalizeFault where
  | zeroDivision
deriving DecidableEq, Repr

/-- Fallible embedding of `src/utils.py:28-53`: identical to `extend_video_frames`
except that it makes the Python `ZeroDivisionError` explicit. Lean's `Nat`
division totalizes `t / 0 = 0`, but the source's
`loops_needed = (target_frames // current_frames) + 1` raises
`ZeroDivisionError` when `current_frames == 0` (reachable exactly when the
input sequence is empty and `target_frames > 0`), so that path returns an
error value here. -/
def extend_video_frames_run {α : Type} (frames : List α) (target_duration fps : Nat) :
    Except NormalizeFault (List α) :=
  let current_frames := frames.length
  let target_frames := target_duration * fps
  if target_frames ≤ current_frames then
    .ok (frames.take target_frames)
  else if current_frames = 0 then
    .error .zeroDivision
  else
    .ok ((List.replicate (loops_needed current_frames target_frames) frames).flatten.take
      target_frames)

/-! ## Model configuration (`src/config.py`) -/

/-- One entry of the `MODELS` table at `src/config.py:12-27`. -/
structure ModelConfig where
  repo_id : String
  min_vram_gb : Nat
  default_resolution : Nat × Nat
  max_frames : Nat
  fps : Nat
deriving DecidableEq, Repr

/-- `MODELS['cogvideox-2b']` (`src/config.py:13-19`). -/
def cogvideox_2b : ModelConfig :=
  { repo_id := "THUDM/CogVideoX-2b"
    min_vram_gb := 8
    default_resolution := (480, 720)
    max_frames := 49
    fps := 8 }

/-- `MODELS['cogvideox-5b']` (`src/config.py:20-26`). -/
def cogvideox_5b : ModelConfig :=
  { repo_id := "THUDM/CogVideoX-5b"
    min_vram_gb := 24
    default_resolution := (720, 1280)
    max_frames := 49
    fps := 8 }

/-- The `MODELS` dict (`src/config.py:12-27`), as an association list. -/
def MODELS : List (String × ModelConfig) :=
  [("cogvideox-2b", cogvideox_2b), ("cogvideox-5b", cogvideox_5b)]

/-- `DEFAULT_MODEL` (`src/config.py:37`). -/
def DEFAULT_MODEL : String := "cogvideox-2b"

/-- Embedding of `src/config.py:95-97`:
`get_model_config(name) = MODELS.get(name, MODELS[DEFAULT_MODEL])`.
`MODELS[DEFAULT_MODEL]` is `cogvideox_2b` (see `MODELS_lookup_default`). -/
def get_model_config (model_name : String) : ModelConfig :=
  (MODELS.lookup model_name).getD cogvideox_2b

/-! ## Python string primitives used by the upload routines

Embedded at the character level so that their behavior (notably
left-to-right non-overlapping `str.replace`, `str.split` keeping empty
fields, and `posixpath` basename/dirname) matches CPython exactly. -/

/-- Python `s.replace('//', '/')`: left-to-right, non-overlapping. -/
def replaceDS : List Char → List Char
  | [] => []
  | [c] => [c]
  | a :: b :: rest =>
    if a = '/' ∧ b = '/' then '/' :: replaceDS rest else a :: replaceDS (b :: rest)

/-- Does the character list contain two consecutive slashes? -/
def hasDS : List Char → Bool
  | [] => false
  | [_] => false
  | a :: b :: rest => if a = '/' ∧ b = '/' then true else hasDS (b :: rest)

/-- `f"{remote_dir}/{filename}".replace('//', '/')` — the remote path built at
`src/text_to_video.py:239`. -/
def remote_path_code (remote_dir filename : String) : String :=
  ⟨replaceDS (remote_dir.data ++ '/' :: filename.data)⟩

/-- `f"{remote_dir}/{filename}"` with no collapsing — the remote path built at
`src/upload_video_mcp.py:44`. -/
def remote_path_mcp (remote_dir filename : String) : String :=
  remote_dir ++ "/" ++ filename

/-- Modelled from the claim's words (C9): the concatenation
`remote_dir + "/" + filename` with only the doubled slash introduced by the
concatenation itself (a remote directory ending in `'/'`) collapsed to a
single slash. -/
def remote_path_claimed (remote_dir filename : String) : String :=
  if remote_dir.data.getLast? = some '/' then remote_dir ++ filename
  else remote_dir ++ "/" ++ filename

/-- Python `s.split('/')`: splits at every `'/'`, keeping empty fields
(so `''.split('/') == ['']` and `'a//b'.split('/') == ['a', '', 'b']`). -/
def splitSlash : List Char → List (List Char)
  | [] => [[]]
  | c :: rest =>
    match splitSlash rest with
    | [] => [[]]
    | g :: gs => if c = '/' then [] :: g :: gs else (c :: g) :: gs

/-- Python `s.strip('/')`: drop `'/'` from both ends. -/
def stripSlash (cs : List Char) : List Char :=
  ((cs.dropWhile (· = '/')).reverse.dropWhile (· = '/')).reverse

/-- `remote_dir.strip('/').split('/')` as it appears at
`src/text_to_video.py:272` and `src/upload_video_mcp.py:67`. -/
def stripSplit (s : String) : List String :=
  (splitSlash (stripSlash s.data)).map fun cs => ⟨cs⟩

/-- Python `posixpath.basename`: everything after the last `'/'`. -/
def pyBasename (p : String) : String :=
  ⟨(p.data.reverse.takeWhile (· ≠ '/')).reverse⟩

/-- Python `posixpath.dirname`: everything before the last `'/'`, with
trailing slashes stripped unless the result is all slashes. -/
def pyDirname (p : String) : String :=
  let head := (p.data.reverse.dropWhile (· ≠ '/')).reverse
  if head.isEmpty then ""
  else if head.all (· = '/') then ⟨head⟩
  else ⟨(head.reverse.dropWhile (· = '/')).reverse⟩

/-! ## FTP client embedding

The three upload routines (`FTPUploader.upload` in `src/text_to_video.py`,
`upload_video_to_ftp` in `src/upload_video_mcp.py`, `upload_file` in
`src/upload_to_ftp.py`) drive a single `ftplib.FTP` control connection. The
client code is embedded exactly; the remote server is an abstract
environment: flags decide which protocol operations succeed, a directory
tree records `MKD`/`CWD` state, and `size_reply` is the size the server
reports for the stored file. Every operation issued is recorded in a trace,
and `opened`/`closed` track the control connection, so resource claims are
statable. Python `try`/`except` is embedded by explicit propagation of each
operation's success flag: an operation returning `false` raises, and the
routine's structure decides which handler catches it. -/

/-- One operation issued on the FTP control connection. -/
inductive FTPOp where
  | connect (host : String) (port : Nat)
  | login (user password : String)
  | cwd (path : String)
  | mkd (path : String)
  | stor (name : String) (size : Nat)
  | nlst
  | typeI
  | sizeQuery (name : String)
  | quit
deriving DecidableEq, Repr

/-- Abstract remote server: which operations succeed, which directories
pre-exist (as absolute component paths; the root always exists), and the
size it reports for the stored file. `TYPE I` is assumed to always succeed. -/
structure FTPServer where
  connect_ok : Bool
  login_ok : Bool
  init_dirs : List (List String)
  stor_ok : Bool
  nlst_ok : Bool
  size_ok : Bool
  size_reply : Nat

/-- Client-visible connection state: the server's directory tree (mutable via
`MKD`), the session's working directory, whether the control connection was
opened and whether it was closed, and the trace of issued operations. -/
structure FTPConn where
  dirs : List (List String)
  cur : List String
  opened : Bool
  closed : Bool
  trace : List FTPOp

/-- Fresh connection state against a server. -/
def initConn (sv : FTPServer) : FTPConn :=
  { dirs := sv.init_dirs, cur := [], opened := false, closed := false, trace := [] }

/-- Does directory `d` exist (the root `[]` always does)? -/
def dirExistsB (c : FTPConn) (d : List String) : Bool :=
  d.isEmpty || c.dirs.contains d

/-- Resolve an FTP path argument against the working directory: absolute if it
starts with `'/'`, else relative; empty components are ignored. -/
def resolvePath (cur : List String) (p : String) : List String :=
  let comps := ((splitSlash p.data).map fun cs => (⟨cs⟩ : String)).filter (· ≠ "")
  if p.data.head? = some '/' then comps else cur ++ comps

/-- `ftp.connect(host, port)`. -/
def doConnect (sv : FTPServer) (host : String) (port : Nat) (c : FTPConn) : Bool × FTPConn :=
  let c := { c with trace := c.trace ++ [.connect host port] }
  if sv.connect_ok then (true, { c with opened := true }) else (false, c)

/-- `ftp.login(user, password)`. -/
def doLogin (sv : FTPServer) (user password : String) (c : FTPConn) : Bool × FTPConn :=
  (sv.login_ok, { c with trace := c.trace ++ [.login user password] })

/-- `ftp.cwd(path)`: succeeds iff the resolved directory exists. -/
def doCwd (path : String) (c : FTPConn) : Bool × FTPConn :=
  let c := { c with trace := c.trace ++ [.cwd path] }
  let t := resolvePath c.cur path
  if dirExistsB c t then (true, { c with cur := t }) else (false, c)

/-- `ftp.mkd(path)`: succeeds iff the resolved directory does not yet exist
and its parent does. -/
def doMkd (path : String) (c : FTPConn) : Bool × FTPConn :=
  let c := { c with trace := c.trace ++ [.mkd path] }
  let t := resolvePath c.cur path
  if dirExistsB c t then (false, c)
  else if dirExistsB c t.dropLast then (true, { c with dirs := c.dirs ++ [t] })
  else (false, c)

/-- `ftp.storbinary('STOR ' + name, f, callback)`. -/
def doStor (sv : FTPServer) (name : String) (size : Nat) (c : FTPConn) : Bool × FTPConn :=
  (sv.stor_ok, { c with trace := c.trace ++ [.stor name size] })

/-- `ftp.nlst()`. -/
def doNlst (sv : FTPServer) (c : FTPConn) : Bool × FTPConn :=
  (sv.nlst_ok, { c with trace := c.trace ++ [.nlst] })

/-- `ftp.sendcmd('TYPE I')`. -/
def doTypeI (c : FTPConn) : FTPConn :=
  { c with trace := c.trace ++ [.typeI] }

/-- `ftp.size(name)`: reports the server's `size_reply` (or fails). -/
def doSize (sv : FTPServer) (name : String) (c : FTPConn) : Bool × Nat × FTPConn :=
  (sv.size_ok, sv.size_reply, { c with trace := c.trace ++ [.sizeQuery name] })

/-- `ftp.quit()`: closes the control connection. -/
def doQuit (c : FTPConn) : FTPConn :=
  { c with closed := true, trace := c.trace ++ [.quit] }

/-- The local file the caller wants to upload, together with the server the
connection will talk to (`os.path.getsize` raises when the file is absent,
which the enclosing `except` of each routine turns into a failure). -/
structure UploadEnv where
  sv : FTPServer
  local_exists : Bool
  local_size : Nat

/-- The `FTPUploader` attributes read from `config` at
`src/text_to_video.py:218-223` (resp. the `config` dict of
`src/upload_video_mcp.py:31-37`). -/
structure UploaderConfig where
  host : String
  port : Nat
  user : String
  password : String
  remote_dir : String

/-- Outcome of `FTPUploader.upload`, one constructor per `return` site of the
source: the "FTP not configured" early return at `src/text_to_video.py:244-247`
(the site the spec's error taxonomy names `ConfigurationError`; the source
prints a warning and returns `None`), the `except` handler's `return None` at
lines 307-310, and the successful `return remote_path` at line 305. -/
inductive UploadResult where
  | notConfigured
  | failed
  | uploaded (remote_path : String)
deriving DecidableEq, Repr

/-- The per-segment creation loop at `src/text_to_video.py:273-278`:
`for d in dirs: try cwd(d) except: mkd(d); cwd(d)`. A failure of `mkd` or of
the second `cwd` propagates to the routine's outermost handler. -/
def segLoop : List String → FTPConn → Bool × FTPConn
  | [], c => (true, c)
  | d :: rest, c =>
    match doCwd d c with
    | (true, c) => segLoop rest c
    | (false, c) =>
      match doMkd d c with
      | (true, c) =>
        match doCwd d c with
        | (true, c) => segLoop rest c
        | (false, c) => (false, c)
      | (false, c) => (false, c)

/-- The per-segment creation loop at `src/upload_video_mcp.py:68-74`: the
same loop, but each segment is first tested non-empty (`if part:`). -/
def segLoopMCP : List String → FTPConn → Bool × FTPConn
  | [], c => (true, c)
  | d :: rest, c =>
    if d = "" then segLoopMCP rest c
    else
      match doCwd d c with
      | (true, c) => segLoopMCP rest c
      | (false, c) =>
        match doMkd d c with
        | (true, c) =>
          match doCwd d c with
          | (true, c) => segLoopMCP rest c
          | (false, c) => (false, c)
        | (false, c) => (false, c)

/-- The directory block of `FTPUploader.upload` (`src/text_to_video.py:261-278`):
try `cwd(remote_dir)`; on failure try a single `mkd(remote_dir); cwd(remote_dir)`;
on failure of either, run the per-segment loop over
`remote_dir.strip('/').split('/')`. -/
def ensureDirUploader (remote_dir : String) (c : FTPConn) : Bool × FTPConn :=
  match doCwd remote_dir c with
  | (true, c) => (true, c)
  | (false, c) =>
    match doMkd remote_dir c with
    | (true, c) =>
      match doCwd remote_dir c with
      | (true, c) => (true, c)
      | (false, c) => segLoop (stripSplit remote_dir) c
    | (false, c) => segLoop (stripSplit remote_dir) c

/-- The directory block of `upload_video_to_ftp` (`src/upload_video_mcp.py:62-74`):
try `cwd(remote_dir)`; on failure run the filtered per-segment loop over
`remote_dir.strip('/').split('/')`. -/
def ensureDirMCP (remote_dir : String) (c : FTPConn) : Bool × FTPConn :=
  match doCwd remote_dir c with
  | (true, c) => (true, c)
  | (false, c) => segLoopMCP (stripSplit remote_dir) c

/-- Embedding of `FTPUploader.upload` (`src/text_to_video.py:225-310`).
`remote_filename?` is the optional second argument; the source treats both
`None` and an empty string as absent (`if not remote_filename`), defaulting to
`os.path.basename(local_path)` (passed here as `local_basename`). The config
check precedes the `try` block, so on empty host or user nothing is sent. All
operations from `os.path.getsize` on sit inside one `try` whose handler
returns `None` (constructor `failed`) without closing the connection. On
success the source verifies via `ftp.nlst()` (membership only affects
logging), calls `ftp.quit()` and returns the remote path. -/
def FTPUploader_upload (cfg : UploaderConfig) (env : UploadEnv)
    (local_basename : String) (remote_filename? : Option String) : UploadResult × FTPConn :=
  let remote_filename :=
    match remote_filename? with
    | none => local_basename
    | some s => if s = "" then local_basename else s
  let remote_path := remote_path_code cfg.remote_dir remote_filename
  if cfg.host = "" ∨ cfg.user = "" then
    (.notConfigured, initConn env.sv)
  else
    let c := initConn env.sv
    if env.local_exists = false then (.failed, c)
    else
      match doConnect env.sv cfg.host cfg.port c with
      | (false, c) => (.failed, c)
      | (true, c) =>
        match doLogin env.sv cfg.user cfg.password c with
        | (false, c) => (.failed, c)
        | (true, c) =>
          match ensureDirUploader cfg.remote_dir c with
          | (false, c) => (.failed, c)
          | (true, c) =>
            match doStor env.sv remote_filename env.local_size c with
            | (false, c) => (.failed, c)
            | (true, c) =>
              match doNlst env.sv c with
              | (false, c) => (.failed, c)
              | (true, c) =>
                (.uploaded remote_path, doQuit c)

/-- Outcome of `upload_video_to_ftp`, one constructor per `return` site of the
source: `return True` after a matching size check (`src/upload_video_mcp.py:102`),
`return False` at the size-mismatch site (line 106 — the site the spec's error
taxonomy names `VerificationMismatch`), and the `except` handler's
`return False` (line 112). -/
inductive MCPUploadResult where
  | ok
  | sizeMismatch
  | error
deriving DecidableEq, Repr

/-- Embedding of `upload_video_to_ftp` (`src/upload_video_mcp.py:39-112`).
`video_basename` is `os.path.basename(video_path)`. After `STOR`, the source
sends `TYPE I`, queries `ftp.size(filename)` and compares it with the local
size: on equality it quits and returns `True`; on mismatch it quits and
returns `False`; any raised operation reaches the `except` handler, which
returns `False` without closing the connection. -/
def upload_video_to_ftp (cfg : UploaderConfig) (env : UploadEnv)
    (video_basename : String) : MCPUploadResult × FTPConn :=
  let c := initConn env.sv
  if env.local_exists = false then (.error, c)
  else
    match doConnect env.sv cfg.host cfg.port c with
    | (false, c) => (.error, c)
    | (true, c) =>
      match doLogin env.sv cfg.user cfg.password c with
      | (false, c) => (.error, c)
      | (true, c) =>
        match ensureDirMCP cfg.remote_dir c with
        | (false, c) => (.error, c)
        | (true, c) =>
          match doStor env.sv video_basename env.local_size c with
          | (false, c) => (.error, c)
          | (true, c) =>
            let c := doTypeI c
            match doSize env.sv video_basename c with
            | (false, _, c) => (.error, c)
            | (true, remote_size, c) =>
              if remote_size = env.local_size then (.ok, doQuit c)
              else (.sizeMismatch, doQuit c)

/-- Embedding of `upload_file` (`src/upload_to_ftp.py:9-56`). The source
connects, logs in, changes into `os.path.dirname(remote_path)` when non-empty
(with no inner handler: a `cwd` failure reaches the outer `except`), stores
the file, sends `TYPE I`, queries the remote size — and then merely PRINTS
whether the sizes match: it quits and returns `True` regardless of the
comparison. The `except` handler returns `False` without closing the
connection. -/
def upload_file (env : UploadEnv) (host : String) (port : Nat) (user password : String)
    (remote_path : String) : Bool × FTPConn :=
  let c := initConn env.sv
  match doConnect env.sv host port c with
  | (false, c) => (false, c)
  | (true, c) =>
    match doLogin env.sv user password c with
    | (false, c) => (false, c)
    | (true, c) =>
      let remote_dir := pyDirname remote_path
      let remote_filename := pyBasename remote_path
      match (if remote_dir = "" then (true, c) else doCwd remote_dir c) with
      | (false, c) => (false, c)
      | (true, c) =>
        if env.local_exists = false then (false, c)
        else
          match doStor env.sv remote_filename env.local_size c with
          | (false, c) => (false, c)
          | (true, c) =>
            let c := doTypeI c
            match doSize env.sv remote_filename c with
            | (false, _, c) => (false, c)
            | (true, _, c) => (true, doQuit c)

/-- A server on which every operation succeeds, no directory initially exists,
and the reported size is `size_reply`. -/
def allOkServer (size_reply : Nat) : FTPServer :=
  { connect_ok := true, login_ok := true, init_dirs := [], stor_ok := true,
    nlst_ok := true, size_ok := true, size_reply := size_reply }

/-- A server with pre-existing directories `/videos` and every operation
succeeding. -/
def videosServer (size_reply : Nat) : FTPServer :=
  { connect_ok := true, login_ok := true, init_dirs := [["videos"]], stor_ok := true,
    nlst_ok := true, size_ok := true, size_reply := size_reply }

/-- The uploader configuration used by concrete runs below. -/
def videosConfig : UploaderConfig :=
  { host := "ftp.example.com", port := 21, user := "alice", password := "pw",
    remote_dir := "/videos" }

/-! ## Lemmas about the frame normalizer -/

/-- The tiled array before trimming has `loops * current_frames` frames. -/
theorem length_flatten_replicate {α : Type} (k : Nat) (l : List α) :
    ((List.replicate k l).flatten).length = k * l.length := by
  rw [List.length_flatten, List.map_replicate, List.sum_const_nat]

/-- The tile count chosen by the source always reaches the target:
`target ≤ current * loops_needed current target` whenever `current ≥ 1`. -/
theorem le_mul_loops (n t : Nat) (hn : 1 ≤ n) : t ≤ n * loops_needed n t := by
  have h1 := Nat.div_add_mod t n
  have h2 : t % n < n := Nat.mod_lt t hn
  calc t = n * (t / n) + t % n := h1.symm
    _ ≤ n * (t / n) + n := Nat.add_le_add_left (Nat.le_of_lt h2) _
    _ = n * (t / n + 1) := by ring
    _ = n * loops_needed n t := rfl

/-- Indexing into a flattened replication is indexing into the original list
modulo its length. -/
theorem flatten_replicate_getElem? {α : Type} (k : Nat) (l : List α) (i : Nat)
    (hi : i < k * l.length) :
    ((List.replicate k l).flatten)[i]? = l[i % l.length]? := by
  induction k generalizing i with
  | zero => omega
  | succ k ih =>
    rw [List.replicate_succ, List.flatten_cons]
    by_cases h : i < l.length
    · rw [List.getElem?_append_left h]
      congr 1
      exact (Nat.mod_eq_of_lt h).symm
    · have hle : l.length ≤ i := Nat.le_of_not_lt h
      rw [List.getElem?_append_right hle]
      have hik : i < k * l.length + l.length := by
        have : (k + 1) * l.length = k * l.length + l.length := Nat.succ_mul k l.length
        rw [this] at hi
        exact hi
      have hsub : i - l.length < k * l.length := Nat.sub_lt_right_of_lt_add hle hik
      rw [ih (i - l.length) hsub]
      congr 1
      exact (Nat.mod_eq_sub_mod hle).symm

/-! ## Claim theorems: frame normalizer -/

/-- C1: for every frame sequence of length `n ≥ 1` and every target frame count
`m = target_duration * fps ≥ 1`, `extend_video_frames` returns a sequence of
exactly `m` frames. -/
theorem C1_normalize_length {α : Type} (frames : List α) (target_duration fps : Nat)
    (hn : 1 ≤ frames.length) (_hm : 1 ≤ target_duration * fps) :
    (extend_video_frames frames target_duration fps).length = target_duration * fps := by
  unfold extend_video_frames
  by_cases h : target_duration * fps ≤ frames.length
  · simp [h]
  · have hcap : target_duration * fps ≤
        loops_needed frames.length (target_duration * fps) * frames.length :=
      (le_mul_loops frames.length (target_duration * fps) hn).trans_eq (Nat.mul_comm _ _)
    simp only [if_neg h, List.length_take, length_flatten_replicate]
    omega

/-- C1 witness: a five-frame input extended to 12 frames yields exactly 12. -/
theorem C1_normalize_length_witness :
    1 ≤ ([0, 1, 2, 3, 4] : List Nat).length ∧ 1 ≤ 12 * 1 ∧
      (extend_video_frames ([0, 1, 2, 3, 4] : List Nat) 12 1).length = 12 * 1 :=
  ⟨by decide, by decide, C1_normalize_length [0, 1, 2, 3, 4] 12 1 (by decide) (by decide)⟩

/-- C2: for every input of length `n ≥ 1` and target count `m = duration * fps`,
output frame `i` equals input frame `i % n` for every `i < m`; and when
`n ≥ m` the output is exactly the first `m` input frames. -/
theorem C2_normalize_cyclic {α : Type} (frames : List α) (target_duration fps : Nat)
    (hn : 1 ≤ frames.length) :
    (∀ i, i < target_duration * fps →
      (extend_video_frames frames target_duration fps)[i]? = frames[i % frames.length]?)
    ∧ (target_duration * fps ≤ frames.length →
      extend_video_frames frames target_duration fps = frames.take (target_duration * fps)) := by
  constructor
  · intro i hi
    unfold extend_video_frames
    by_cases h : target_duration * fps ≤ frames.length
    · rw [if_pos h, List.getElem?_take_of_lt hi]
      congr 1
      exact (Nat.mod_eq_of_lt (Nat.lt_of_lt_of_le hi h)).symm
    · rw [if_neg h, List.getElem?_take_of_lt hi]
      apply flatten_replicate_getElem?
      have hcap : target_duration * fps ≤
          loops_needed frames.length (target_duration * fps) * frames.length :=
        (le_mul_loops frames.length (target_duration * fps) hn).trans_eq (Nat.mul_comm _ _)
      omega
  · intro h
    unfold extend_video_frames
    rw [if_pos h]

/-- C2 witness: the spec scenario (5 frames, target 12): output index 7 holds
input frame `7 % 5 = 2`. -/
theorem C2_normalize_cyclic_witness :
    1 ≤ ([10, 20, 30, 40, 50] : List Nat).length ∧
      (extend_video_frames ([10, 20, 30, 40, 50] : List Nat) 12 1)[7]? = some 30 := by
  refine ⟨by decide, ?_⟩
  have h := (C2_normalize_cyclic ([10, 20, 30, 40, 50] : List Nat) 12 1 (by decide)).1 7
    (by decide)
  rw [h]
  decide

/-- C3 counterexample: with 5 input frames and target 10 (the looping branch,
since `5 < 10`), the code repeats the input `10 / 5 + 1 = 3` times before
trimming, but `ceil(10 / 5) = (10 + 5 - 1) / 5 = 2`, so the claimed repeat
count `ceil(m / n)` is wrong whenever `n` divides `m`. -/
theorem C3_loops_counterexample :
    5 < 10 ∧ loops_needed 5 10 = 3 ∧ (10 + 5 - 1) / 5 = 2 ∧
      loops_needed 5 10 ≠ (10 + 5 - 1) / 5 ∧
      ((List.replicate (loops_needed 5 10) ([0, 1, 2, 3, 4] : List Nat)).flatten).length = 15 := by
  decide

/-- C3 as amended: in the looping branch (`n < m`) the repeat count before
trimming is `m / n + 1` (floor division plus one). This equals
`ceil(m / n) = (m + n - 1) / n` exactly when `n` does not divide `m`; when
`n` divides `m` it is `ceil(m / n) + 1`. In both cases the repetitions reach
at least `m` frames before trimming. -/
theorem C3_loops_floor_succ (n t : Nat) (hn : 1 ≤ n) (hlt : n < t) :
    loops_needed n t = t / n + 1
    ∧ (¬ n ∣ t → loops_needed n t = (t + n - 1) / n)
    ∧ (n ∣ t → loops_needed n t = (t + n - 1) / n + 1)
    ∧ t ≤ n * loops_needed n t := by
  have h1 := Nat.div_add_mod t n
  have h2 : t % n < n := Nat.mod_lt t hn
  refine ⟨rfl, ?_, ?_, le_mul_loops n t hn⟩
  · intro hnd
    have hr0 : t % n ≠ 0 := fun hz => hnd (Nat.dvd_iff_mod_eq_zero.mpr hz)
    have he : t + n - 1 = n * (t / n + 1) + (t % n - 1) := by
      rw [Nat.mul_add, Nat.mul_one]
      generalize n * (t / n) = A at h1 ⊢
      generalize t % n = r at h1 h2 hr0 ⊢
      omega
    have hz : (t % n - 1) / n = 0 := Nat.div_eq_of_lt (by omega)
    show t / n + 1 = (t + n - 1) / n
    rw [he, Nat.mul_add_div hn, hz, Nat.add_zero]
  · intro hd
    have hr0 : t % n = 0 := Nat.dvd_iff_mod_eq_zero.mp hd
    have he : t + n - 1 = n * (t / n) + (n - 1) := by
      generalize n * (t / n) = A at h1 ⊢
      omega
    have hz : (n - 1) / n = 0 := Nat.div_eq_of_lt (by omega)
    show t / n + 1 = (t + n - 1) / n + 1
    rw [he, Nat.mul_add_div hn, hz, Nat.add_zero]

/-- C3 witness: 4 input frames, target 10 (4 does not divide 10): the repeat
count `10 / 4 + 1 = 3` equals `ceil(10 / 4) = 3`. -/
theorem C3_loops_floor_succ_witness :
    1 ≤ 4 ∧ 4 < 10 ∧ loops_needed 4 10 = (10 + 4 - 1) / 4 :=
  ⟨by decide, by decide, (C3_loops_floor_succ 4 10 (by decide) (by decide)).2.1 (by decide)⟩

/-- C4: on an empty input with positive target frame count
(`target_frames = 1 * 8 = 8 > 0 = current_frames`), the source reaches
`loops_needed = target_frames // 0` and raises `ZeroDivisionError` — an
unhandled arithmetic fault, not the typed `InvalidInput` failure the spec
prescribes. -/
theorem C4_empty_input_zero_division :
    extend_video_frames_run ([] : List Nat) 1 8 = .error .zeroDivision := by
  rfl

/-! ## Claim theorems: upload client -/

/-- Equational form used to derive C5: with an empty host or user,
`FTPUploader.upload` returns from the configuration check before the `try`
block, leaving a fresh, never-opened connection state. -/
theorem FTPUploader_upload_not_configured (cfg : UploaderConfig) (env : UploadEnv)
    (local_basename : String) (remote_filename? : Option String)
    (h : cfg.host = "" ∨ cfg.user = "") :
    FTPUploader_upload cfg env local_basename remote_filename? =
      (.notConfigured, initConn env.sv) := by
  unfold FTPUploader_upload
  rw [if_pos h]

/-- C5: if `upload` is called with an empty host (or empty user), it fails at
the distinct "FTP not configured" return site (the spec's
`ConfigurationError`) and returns before any connection is attempted: the
operation trace is empty and the control connection was never opened, so no
connect, login, or transfer was performed. -/
theorem C5_not_configured (cfg : UploaderConfig) (env : UploadEnv)
    (local_basename : String) (remote_filename? : Option String)
    (h : cfg.host = "" ∨ cfg.user = "") :
    (FTPUploader_upload cfg env local_basename remote_filename?).1 = .notConfigured
    ∧ (FTPUploader_upload cfg env local_basename remote_filename?).2.trace = []
    ∧ (FTPUploader_upload cfg env local_basename remote_filename?).2.opened = false := by
  rw [FTPUploader_upload_not_configured cfg env local_basename remote_filename? h]
  exact ⟨rfl, rfl, rfl⟩

/-- C5 witness: with `host = ""` nothing is sent and the result is the
configuration failure. -/
theorem C5_not_configured_witness :
    (({ videosConfig with host := "" } : UploaderConfig).host = "" ∨
      ({ videosConfig with host := "" } : UploaderConfig).user = "")
    ∧ (FTPUploader_upload { videosConfig with host := "" }
        ⟨videosServer 0, true, 1000⟩ "v.mp4" none).1 = .notConfigured
    ∧ (FTPUploader_upload { videosConfig with host := "" }
        ⟨videosServer 0, true, 1000⟩ "v.mp4" none).2.trace = [] := by
  have h := C5_not_configured { videosConfig with host := "" }
    ⟨videosServer 0, true, 1000⟩ "v.mp4" none (Or.inl rfl)
  exact ⟨Or.inl rfl, h.1, h.2.1⟩

/-- A server that accepts the connection, login and directory change but
fails the `STOR` data transfer. -/
def storFailServer : FTPServer :=
  { videosServer 0 with stor_ok := false }

/-- C7 counterexample: on a mid-transfer error (`STOR` raises after a
successful connect, login and `cwd`), `FTPUploader.upload`'s `except` handler
returns `None` without ever calling `ftp.quit()`: the call returns with the
control connection opened and not closed, refuting "the call never returns
with the connection still open". -/
theorem C7_counterexample :
    (FTPUploader_upload videosConfig ⟨storFailServer, true, 1000⟩ "v.mp4" none).1 = .failed
    ∧ (FTPUploader_upload videosConfig ⟨storFailServer, true, 1000⟩ "v.mp4" none).2.opened = true
    ∧ (FTPUploader_upload videosConfig ⟨storFailServer, true, 1000⟩ "v.mp4" none).2.closed
        = false
    ∧ (FTPUploader_upload videosConfig ⟨storFailServer, true, 1000⟩ "v.mp4" none).2.trace
        = [.connect "ftp.example.com" 21, .login "alice" "pw", .cwd "/videos",
           .stor "v.mp4" 1000] := by
  decide

/-- Pair form of the amended C7, proved by exhausting every return site of
`FTPUploader.upload`. -/
theorem FTPUploader_upload_success_closes (cfg : UploaderConfig) (env : UploadEnv)
    (local_basename : String) (remote_filename? : Option String) (p : String) (c' : FTPConn)
    (h : FTPUploader_upload cfg env local_basename remote_filename? = (.uploaded p, c')) :
    c'.closed = true := by
  simp only [FTPUploader_upload] at h
  repeat' split at h
  all_goals simp only [Prod.mk.injEq] at h
  all_goals first
  | (obtain ⟨h1, h2⟩ := h
     subst h2
     rfl)
  | simp_all [doQuit]

/-- C7 as amended: `FTPUploader.upload` closes the control connection (via
`ftp.quit()`) before returning whenever it returns successfully; on exception
failure paths after the connection is opened the source has no handler that
closes it (see the counterexample), so closure is guaranteed only for the
success outcome. -/
theorem C7_success_closes (cfg : UploaderConfig) (env : UploadEnv)
    (local_basename : String) (remote_filename? : Option String) (p : String)
    (h : (FTPUploader_upload cfg env local_basename remote_filename?).1 = .uploaded p) :
    (FTPUploader_upload cfg env local_basename remote_filename?).2.closed = true := by
  apply FTPUploader_upload_success_closes cfg env local_basename remote_filename? p
    (FTPUploader_upload cfg env local_basename remote_filename?).2
  rw [← h]

/-- C7 witness: on a fully successful run the connection ends closed. -/
theorem C7_success_closes_witness :
    (FTPUploader_upload videosConfig ⟨videosServer 1000, true, 1000⟩ "v.mp4" none).1
      = .uploaded "/videos/v.mp4"
    ∧ (FTPUploader_upload videosConfig ⟨videosServer 1000, true, 1000⟩ "v.mp4" none).2.closed
      = true :=
  ⟨by decide, C7_success_closes videosConfig ⟨videosServer 1000, true, 1000⟩ "v.mp4" none
    "/videos/v.mp4" (by decide)⟩

/-- C6 counterexample: `upload_to_ftp.upload_file` (one of the two routines
the claim covers) completes the `STOR`, receives a remote size report of 999
for a 1000-byte local file — and still returns `True`: the size comparison
only selects a log message (`src/upload_to_ftp.py:46-49`) and `return True`
follows unconditionally, refuting "upload returns a failed result
(success == false)". -/
theorem C6_counterexample :
    (videosServer 999).size_reply ≠ (1000 : Nat)
    ∧ (upload_file ⟨videosServer 999, true, 1000⟩ "ftp.example.com" 21 "alice" "pw"
        "/videos/v.mp4").1 = true
    ∧ (upload_file ⟨videosServer 999, true, 1000⟩ "ftp.example.com" 21 "alice" "pw"
        "/videos/v.mp4").2.trace
      = [.connect "ftp.example.com" 21, .login "alice" "pw", .cwd "/videos",
         .stor "v.mp4" 1000, .typeI, .sizeQuery "v.mp4", .quit] := by
  decide

/-- C6 as amended: when the server reports a remote size different from the
local size after a completed `STOR`, `upload_video_to_ftp` returns a failed
result from the distinct size-mismatch return site (no exception) and closes
the control connection first — but `upload_to_ftp.upload_file` merely logs
the mismatch and still returns success (it too closes the connection before
returning). -/
theorem C6_mismatch_amended
    (cfg : UploaderConfig) (env : UploadEnv) (fn : String)
    (h1 : env.sv.connect_ok = true) (h2 : env.sv.login_ok = true)
    (h3 : env.sv.stor_ok = true) (h4 : env.sv.size_ok = true)
    (h5 : env.local_exists = true)
    (h6 : resolvePath [] cfg.remote_dir ∈ env.sv.init_dirs)
    (h7 : env.sv.size_reply ≠ env.local_size)
    (env₂ : UploadEnv) (host : String) (port : Nat) (user password remote_path : String)
    (g1 : env₂.sv.connect_ok = true) (g2 : env₂.sv.login_ok = true)
    (g3 : env₂.sv.stor_ok = true) (g4 : env₂.sv.size_ok = true)
    (g5 : env₂.local_exists = true)
    (g6 : pyDirname remote_path = "" ∨
      resolvePath [] (pyDirname remote_path) ∈ env₂.sv.init_dirs)
    (_g7 : env₂.sv.size_reply ≠ env₂.local_size) :
    (upload_video_to_ftp cfg env fn).1 = .sizeMismatch
    ∧ (upload_video_to_ftp cfg env fn).2.closed = true
    ∧ (upload_file env₂ host port user password remote_path).1 = true
    ∧ (upload_file env₂ host port user password remote_path).2.closed = true := by
  refine ⟨?_, ?_, ?_, ?_⟩
  · simp [upload_video_to_ftp, ensureDirMCP, doConnect, doLogin, doCwd, doStor, doTypeI,
      doSize, doQuit, initConn, dirExistsB, h1, h2, h3, h4, h5, h6, h7]
  · simp [upload_video_to_ftp, ensureDirMCP, doConnect, doLogin, doCwd, doStor, doTypeI,
      doSize, doQuit, initConn, dirExistsB, h1, h2, h3, h4, h5, h6, h7]
  · by_cases hd : pyDirname remote_path = ""
    · simp [upload_file, doConnect, doLogin, doCwd, doStor, doTypeI, doSize, doQuit,
        initConn, dirExistsB, g1, g2, g3, g4, g5, hd]
    · have hdir : resolvePath [] (pyDirname remote_path) ∈ env₂.sv.init_dirs :=
        g6.resolve_left hd
      simp [upload_file, doConnect, doLogin, doCwd, doStor, doTypeI, doSize, doQuit,
        initConn, dirExistsB, g1, g2, g3, g4, g5, hd, hdir]
  · by_cases hd : pyDirname remote_path = ""
    · simp [upload_file, doConnect, doLogin, doCwd, doStor, doTypeI, doSize, doQuit,
        initConn, dirExistsB, g1, g2, g3, g4, g5, hd]
    · have hdir : resolvePath [] (pyDirname remote_path) ∈ env₂.sv.init_dirs :=
        g6.resolve_left hd
      simp [upload_file, doConnect, doLogin, doCwd, doStor, doTypeI, doSize, doQuit,
        initConn, dirExistsB, g1, g2, g3, g4, g5, hd, hdir]

/-- C6 witness: a 1000-byte file against a server reporting 999 bytes. -/
theorem C6_mismatch_amended_witness :
    (videosServer 999).size_reply ≠ (1000 : Nat)
    ∧ (upload_video_to_ftp videosConfig ⟨videosServer 999, true, 1000⟩ "v.mp4").1
        = .sizeMismatch
    ∧ (upload_video_to_ftp videosConfig ⟨videosServer 999, true, 1000⟩ "v.mp4").2.closed
        = true
    ∧ (upload_file ⟨videosServer 999, true, 1000⟩ "ftp.example.com" 21 "alice" "pw"
        "/videos/v.mp4").2.closed = true := by
  have h := C6_mismatch_amended videosConfig ⟨videosServer 999, true, 1000⟩ "v.mp4"
    rfl rfl rfl rfl rfl (by decide) (by decide)
    ⟨videosServer 999, true, 1000⟩ "ftp.example.com" 21 "alice" "pw" "/videos/v.mp4"
    rfl rfl rfl rfl rfl (Or.inr (by decide)) (by decide)
  exact ⟨by decide, h.1, h.2.1, h.2.2.2⟩

/-! ## Lemmas for the directory-creation loop (C8) -/

/-- `str.split` never returns an empty list of fields. -/
theorem splitSlash_ne_nil : ∀ cs : List Char, splitSlash cs ≠ []
  | [] => by simp [splitSlash]
  | c :: rest => by
    unfold splitSlash
    split
    · simp
    · split <;> simp

/-- Every field produced by `str.split('/')` is slash-free. -/
theorem mem_splitSlash_no_slash : ∀ (cs g : List Char), g ∈ splitSlash cs → '/' ∉ g
  | [], g, hg => by
    simp only [splitSlash, List.mem_singleton] at hg
    subst hg
    simp
  | c :: rest, g, hg => by
    unfold splitSlash at hg
    split at hg
    · next heq => exact absurd heq (splitSlash_ne_nil rest)
    · next g0 gs heq =>
      split at hg
      · next hc =>
        rcases List.mem_cons.mp hg with hg' | hg'
        · subst hg'; simp
        · exact mem_splitSlash_no_slash rest g (heq ▸ hg')
      · next hc =>
        rcases List.mem_cons.mp hg with hg' | hg'
        · subst hg'
          intro hmem
          rcases List.mem_cons.mp hmem with h1 | h1
          · exact hc h1.symm
          · exact mem_splitSlash_no_slash rest g0 (heq ▸ List.mem_cons_self g0 gs) h1
        · exact mem_splitSlash_no_slash rest g (heq ▸ List.mem_cons_of_mem g0 hg')

/-- `str.split('/')` on a slash-free string is the singleton of that string. -/
theorem splitSlash_no_slash : ∀ cs : List Char, '/' ∉ cs → splitSlash cs = [cs]
  | [], _ => rfl
  | c :: rest, h => by
    have hc : c ≠ '/' := fun hh => h (hh ▸ List.mem_cons_self c rest)
    have hr : '/' ∉ rest := fun hh => h (List.mem_cons_of_mem c hh)
    unfold splitSlash
    rw [splitSlash_no_slash rest hr]
    simp [hc]

/-- Every segment of `remote_dir.strip('/').split('/')` is slash-free. -/
theorem stripSplit_no_slash (s : String) : ∀ d ∈ stripSplit s, '/' ∉ d.data := by
  intro d hd
  unfold stripSplit at hd
  rcases List.mem_map.mp hd with ⟨cs, hcs, hmk⟩
  rw [← hmk]
  exact mem_splitSlash_no_slash _ cs hcs

/-- A non-empty slash-free path argument resolves to a single relative
component appended to the working directory. -/
theorem resolvePath_single (cur : List String) (d : String) (hne : d ≠ "")
    (hns : '/' ∉ d.data) : resolvePath cur d = cur ++ [d] := by
  have hsp : splitSlash d.data = [d.data] := splitSlash_no_slash d.data hns
  have hhead : ¬ d.data.head? = some '/' := by
    cases hdat : d.data with
    | nil => simp
    | cons ch tl =>
      simp only [List.head?_cons, Option.some.injEq]
      intro hh
      exact hns (by rw [hdat, hh]; exact List.mem_cons_self '/' tl)
  unfold resolvePath
  rw [hsp, if_neg hhead]
  show cur ++ ([d].filter (· ≠ "")) = cur ++ [d]
  simp [hne]

/-- The Bool directory test, in propositional form. -/
theorem dirExistsB_eq_true_iff (c : FTPConn) (d : List String) :
    dirExistsB c d = true ↔ d = [] ∨ d ∈ c.dirs := by
  simp [dirExistsB, List.isEmpty_iff, List.contains]

/-- `ftp.cwd` when the target exists. -/
theorem doCwd_found (path : String) (c : FTPConn) (t : List String)
    (hres : resolvePath c.cur path = t) (hex : t = [] ∨ t ∈ c.dirs) :
    doCwd path c = (true, { c with cur := t, trace := c.trace ++ [.cwd path] }) := by
  unfold doCwd
  dsimp only
  have hb : dirExistsB { c with trace := c.trace ++ [FTPOp.cwd path] } t = true :=
    (dirExistsB_eq_true_iff _ t).mpr hex
  rw [hres, if_pos hb]

/-- `ftp.cwd` when the target is absent. -/
theorem doCwd_not_found (path : String) (c : FTPConn) (t : List String)
    (hres : resolvePath c.cur path = t) (hex : ¬ (t = [] ∨ t ∈ c.dirs)) :
    doCwd path c = (false, { c with trace := c.trace ++ [.cwd path] }) := by
  unfold doCwd
  dsimp only
  have hb : ¬ dirExistsB { c with trace := c.trace ++ [FTPOp.cwd path] } t = true :=
    fun hb => hex ((dirExistsB_eq_true_iff _ t).mp hb)
  rw [hres, if_neg hb]

/-- `ftp.mkd` when the target is absent and its parent exists. -/
theorem doMkd_created (path : String) (c : FTPConn) (t : List String)
    (hres : resolvePath c.cur path = t) (hex : ¬ (t = [] ∨ t ∈ c.dirs))
    (hpar : t.dropLast = [] ∨ t.dropLast ∈ c.dirs) :
    doMkd path c = (true, { c with dirs := c.dirs ++ [t], trace := c.trace ++ [.mkd path] }) := by
  unfold doMkd
  dsimp only
  have hb1 : ¬ dirExistsB { c with trace := c.trace ++ [FTPOp.mkd path] } t = true :=
    fun hb => hex ((dirExistsB_eq_true_iff _ t).mp hb)
  have hb2 : dirExistsB { c with trace := c.trace ++ [FTPOp.mkd path] } t.dropLast = true :=
    (dirExistsB_eq_true_iff _ _).mpr hpar
  rw [hres, if_neg hb1, if_pos hb2]

/-- The per-segment loop of `upload_video_to_ftp` always succeeds when started
in an existing working directory and given slash-free segments: it ends in
`cur ++ segments` (empty segments skipped), never removes a directory, and
every non-empty prefix of the segment path exists afterwards. -/
theorem segLoopMCP_spec (ds : List String) : ∀ c : FTPConn,
    (∀ d ∈ ds, '/' ∉ d.data) →
    (c.cur = [] ∨ c.cur ∈ c.dirs) →
    (segLoopMCP ds c).1 = true
    ∧ (segLoopMCP ds c).2.cur = c.cur ++ ds.filter (· ≠ "")
    ∧ (∀ x ∈ c.dirs, x ∈ (segLoopMCP ds c).2.dirs)
    ∧ (∀ k, 1 ≤ k → k ≤ (ds.filter (· ≠ "")).length →
        c.cur ++ (ds.filter (· ≠ "")).take k ∈ (segLoopMCP ds c).2.dirs) := by
  induction ds with
  | nil =>
    intro c _ _
    refine ⟨rfl, by simp [segLoopMCP], fun x hx => hx, ?_⟩
    intro k hk1 hk2
    simp at hk2
    omega
  | cons d rest ih =>
    intro c hds hcur
    by_cases hd : d = ""
    · have hfil : (d :: rest).filter (· ≠ "") = rest.filter (· ≠ "") := by
        simp [List.filter_cons, hd]
      simp only [segLoopMCP, if_pos hd, hfil]
      exact ih c (fun d' hd' => hds d' (List.mem_cons_of_mem d hd')) hcur
    · have hnd : '/' ∉ d.data := hds d (List.mem_cons_self d rest)
      have hfil : (d :: rest).filter (· ≠ "") = d :: rest.filter (· ≠ "") := by
        simp [List.filter_cons, hd]
      have htne : c.cur ++ [d] ≠ [] := by simp
      have hds' : ∀ d' ∈ rest, '/' ∉ d'.data :=
        fun d' hd' => hds d' (List.mem_cons_of_mem d hd')
      simp only [segLoopMCP, if_neg hd, hfil]
      by_cases hex : c.cur ++ [d] ∈ c.dirs
      · -- `cwd d` succeeds directly
        have hcwd := doCwd_found d c (c.cur ++ [d]) (resolvePath_single c.cur d hd hnd)
          (Or.inr hex)
        simp only [hcwd]
        obtain ⟨ih1, ih2, ih3, ih4⟩ := ih
          { c with cur := c.cur ++ [d], trace := c.trace ++ [.cwd d] }
          hds' (Or.inr hex)
        refine ⟨ih1, ih2.trans (by simp), ih3, ?_⟩
        intro k hk1 hk2
        cases k with
        | zero => omega
        | succ k' =>
          by_cases hk0 : k' = 0
          · subst hk0
            simpa using ih3 (c.cur ++ [d]) hex
          · have hk1' : 1 ≤ k' := Nat.one_le_iff_ne_zero.mpr hk0
            have hk2' : k' ≤ (rest.filter (· ≠ "")).length := by
              rw [List.length_cons] at hk2
              omega
            have := ih4 k' hk1' hk2'
            simpa [List.append_assoc] using this
      · -- `cwd d` fails; `mkd d` then `cwd d`
        have hnot : ¬ (c.cur ++ [d] = [] ∨ c.cur ++ [d] ∈ c.dirs) := by
          intro hor
          rcases hor with hor | hor
          · exact htne hor
          · exact hex hor
        have hcwd := doCwd_not_found d c (c.cur ++ [d])
          (resolvePath_single c.cur d hd hnd) hnot
        have hpar : (c.cur ++ [d]).dropLast = [] ∨ (c.cur ++ [d]).dropLast ∈ c.dirs := by
          rw [List.dropLast_concat]
          exact hcur
        have hmkd := doMkd_created d { c with trace := c.trace ++ [.cwd d] } (c.cur ++ [d])
          (resolvePath_single c.cur d hd hnd) hnot hpar
        have hmem2 : c.cur ++ [d] ∈ c.dirs ++ [c.cur ++ [d]] :=
          List.mem_append_right _ (List.mem_singleton.mpr rfl)
        have hcwd2 := doCwd_found d
          { c with
            dirs := c.dirs ++ [c.cur ++ [d]],
            trace := c.trace ++ [.cwd d] ++ [.mkd d] }
          (c.cur ++ [d]) (resolvePath_single c.cur d hd hnd) (Or.inr hmem2)
        simp only [hcwd, hmkd, hcwd2]
        obtain ⟨ih1, ih2, ih3, ih4⟩ := ih
          { c with
            dirs := c.dirs ++ [c.cur ++ [d]],
            cur := c.cur ++ [d],
            trace := c.trace ++ [.cwd d] ++ [.mkd d] ++ [.cwd d] }
          hds' (Or.inr hmem2)
        refine ⟨ih1, ih2.trans (by simp), ?_, ?_⟩
        · intro x hx
          exact ih3 x (List.mem_append_left _ hx)
        · intro k hk1 hk2
          cases k with
          | zero => omega
          | succ k' =>
            by_cases hk0 : k' = 0
            · subst hk0
              simpa using ih3 (c.cur ++ [d]) hmem2
            · have hk1' : 1 ≤ k' := Nat.one_le_iff_ne_zero.mpr hk0
              have hk2' : k' ≤ (rest.filter (· ≠ "")).length := by
                rw [List.length_cons] at hk2
                omega
              have := ih4 k' hk1' hk2'
              simpa [List.append_assoc] using this

/-- The directory block of `upload_video_to_ftp` (`src/upload_video_mcp.py:62-74`),
when the initial `cwd` fails, creates the path per non-empty segment: it
succeeds, ends with the working directory at the full segment path, and
afterwards every non-empty prefix of the segment path exists. -/
theorem ensureDirMCP_segments (remote_dir : String) (c : FTPConn)
    (hcur : c.cur = [])
    (hfail : dirExistsB c (resolvePath c.cur remote_dir) = false) :
    (ensureDirMCP remote_dir c).1 = true
    ∧ (ensureDirMCP remote_dir c).2.cur = (stripSplit remote_dir).filter (· ≠ "")
    ∧ (∀ k, 1 ≤ k → k ≤ ((stripSplit remote_dir).filter (· ≠ "")).length →
        ((stripSplit remote_dir).filter (· ≠ "")).take k ∈ (ensureDirMCP remote_dir c).2.dirs) := by
  have hfail' : ¬ (resolvePath c.cur remote_dir = [] ∨ resolvePath c.cur remote_dir ∈ c.dirs) :=
    fun hor => by simp [(dirExistsB_eq_true_iff c _).mpr hor] at hfail
  have hcwd := doCwd_not_found remote_dir c (resolvePath c.cur remote_dir) rfl hfail'
  simp only [ensureDirMCP, hcwd]
  obtain ⟨s1, s2, s3, s4⟩ := segLoopMCP_spec (stripSplit remote_dir)
    { c with trace := c.trace ++ [.cwd remote_dir] }
    (stripSplit_no_slash remote_dir) (Or.inl hcur)
  refine ⟨s1, s2.trans ?_, ?_⟩
  · show c.cur ++ _ = _
    rw [hcur, List.nil_append]
  · intro k hk1 hk2
    have hm := s4 k hk1 hk2
    simpa [hcur] using hm

/-- The directory block of `FTPUploader.upload` (`src/text_to_video.py:261-278`),
when the initial `cwd` fails but the target's parent exists: the single
`mkd(self.remote_dir)` of the WHOLE path at line 268 succeeds, the retried
`cwd` enters it, and the per-segment fallback loop is never reached — the
trace extends by exactly `[cwd rd, mkd rd, cwd rd]`, with no splitting. -/
theorem ensureDirUploader_single_mkd (rd : String) (c : FTPConn)
    (hfail : ¬ (resolvePath c.cur rd = [] ∨ resolvePath c.cur rd ∈ c.dirs))
    (hpar : (resolvePath c.cur rd).dropLast = [] ∨
      (resolvePath c.cur rd).dropLast ∈ c.dirs) :
    ensureDirUploader rd c =
      (true,
        { c with
          dirs := c.dirs ++ [resolvePath c.cur rd],
          cur := resolvePath c.cur rd,
          trace := c.trace ++ [.cwd rd, .mkd rd, .cwd rd] }) := by
  have hcwd := doCwd_not_found rd c (resolvePath c.cur rd) rfl hfail
  have hmkd := doMkd_created rd { c with trace := c.trace ++ [.cwd rd] }
    (resolvePath c.cur rd) rfl hfail hpar
  have hcwd2 := doCwd_found rd
    { c with
      dirs := c.dirs ++ [resolvePath c.cur rd],
      trace := c.trace ++ [.cwd rd] ++ [.mkd rd] }
    (resolvePath c.cur rd) rfl
    (Or.inr (List.mem_append_right _ (List.mem_singleton.mpr rfl)))
  simp only [ensureDirUploader, hcwd, hmkd, hcwd2]
  simp [List.append_assoc]

/-- C8 counterexample: `FTPUploader.upload` (the claim's other cited routine)
with the default remote directory `/videos` absent on the server: the `cwd`
into the remote directory fails, and the source then creates the WHOLE path
with a single `mkd("/videos")` and re-enters it — the operation trace shows
no per-segment probing at all (no `cwd("videos")` entry attempt and no
`mkd("videos")`), refuting "the remote directory string is split on '/',
and for each non-empty segment the client attempts to enter it, creates it
if entry fails, then enters it" for this routine. -/
theorem C8_counterexample :
    (FTPUploader_upload videosConfig ⟨allOkServer 0, true, 1000⟩ "v.mp4" none).1
      = .uploaded "/videos/v.mp4"
    ∧ (FTPUploader_upload videosConfig ⟨allOkServer 0, true, 1000⟩ "v.mp4" none).2.trace
      = [.connect "ftp.example.com" 21, .login "alice" "pw", .cwd "/videos",
         .mkd "/videos", .cwd "/videos", .stor "v.mp4" 1000, .nlst, .quit]
    ∧ FTPOp.cwd "videos"
        ∉ (FTPUploader_upload videosConfig ⟨allOkServer 0, true, 1000⟩ "v.mp4" none).2.trace
    ∧ FTPOp.mkd "videos"
        ∉ (FTPUploader_upload videosConfig ⟨allOkServer 0, true, 1000⟩ "v.mp4" none).2.trace := by
  decide

/-- C8 as amended: when changing into the configured remote directory fails,
`upload_video_to_ftp` creates it incrementally — the remote-directory string
is split on `'/'` and, for each non-empty segment, the client attempts to
enter it, creates it if entry fails, then enters it, so a nested path of any
depth is created segment by segment (every non-empty prefix of the segment
path exists afterwards). `FTPUploader.upload`, by contrast, first attempts a
single `mkd` of the entire remote directory: when the target's parent exists
this succeeds and it enters the directory with no splitting at all, and only
when that fails does it fall back to a per-segment loop (one that lacks the
non-empty-segment filter). -/
theorem C8_mkdir_amended (remote_dir : String) (c : FTPConn)
    (hcur : c.cur = [])
    (hfail : dirExistsB c (resolvePath c.cur remote_dir) = false)
    (rd₂ : String) (c₂ : FTPConn)
    (hfail₂ : ¬ (resolvePath c₂.cur rd₂ = [] ∨ resolvePath c₂.cur rd₂ ∈ c₂.dirs))
    (hpar₂ : (resolvePath c₂.cur rd₂).dropLast = [] ∨
      (resolvePath c₂.cur rd₂).dropLast ∈ c₂.dirs) :
    (ensureDirMCP remote_dir c).1 = true
    ∧ (ensureDirMCP remote_dir c).2.cur = (stripSplit remote_dir).filter (· ≠ "")
    ∧ (∀ k, 1 ≤ k → k ≤ ((stripSplit remote_dir).filter (· ≠ "")).length →
        ((stripSplit remote_dir).filter (· ≠ "")).take k ∈ (ensureDirMCP remote_dir c).2.dirs)
    ∧ ensureDirUploader rd₂ c₂ =
        (true,
          { c₂ with
            dirs := c₂.dirs ++ [resolvePath c₂.cur rd₂],
            cur := resolvePath c₂.cur rd₂,
            trace := c₂.trace ++ [.cwd rd₂, .mkd rd₂, .cwd rd₂] }) := by
  obtain ⟨a1, a2, a3⟩ := ensureDirMCP_segments remote_dir c hcur hfail
  exact ⟨a1, a2, a3, ensureDirUploader_single_mkd rd₂ c₂ hfail₂ hpar₂⟩

/-- C8 witness: against a server with no directories, `upload_video_to_ftp`
creates `/a/b/c` segment by segment (all three nested directories exist
afterwards), while `FTPUploader.upload`'s block creates `/videos` with a
single whole-path `mkd` and no per-segment operations. -/
theorem C8_mkdir_amended_witness :
    dirExistsB (initConn (allOkServer 0))
        (resolvePath (initConn (allOkServer 0)).cur "/a/b/c") = false
    ∧ (ensureDirMCP "/a/b/c" (initConn (allOkServer 0))).1 = true
    ∧ ((stripSplit "/a/b/c").filter (· ≠ "")).take 3
        ∈ (ensureDirMCP "/a/b/c" (initConn (allOkServer 0))).2.dirs
    ∧ (ensureDirMCP "/a/b/c" (initConn (allOkServer 0))).2.dirs
        = [["a"], ["a", "b"], ["a", "b", "c"]]
    ∧ (ensureDirUploader "/videos" (initConn (allOkServer 0))).2.trace
        = [.cwd "/videos", .mkd "/videos", .cwd "/videos"] := by
  have h := C8_mkdir_amended "/a/b/c" (initConn (allOkServer 0)) rfl (by decide)
    "/videos" (initConn (allOkServer 0)) (by decide) (by decide)
  refine ⟨by decide, h.1, h.2.2.1 3 (by decide) (by decide), by decide, ?_⟩
  rw [h.2.2.2]
  rfl

/-! ## Lemmas for the remote-path construction (C9) -/

/-- A slash-free character list has no doubled slash. -/
theorem hasDS_false_of_no_slash : ∀ cs : List Char, '/' ∉ cs → hasDS cs = false
  | [], _ => rfl
  | [_], _ => rfl
  | a :: b :: rest, h => by
    have ha : a ≠ '/' := fun hh => h (hh ▸ List.mem_cons_self a (b :: rest))
    have h' : '/' ∉ b :: rest := fun hh => h (List.mem_cons_of_mem a hh)
    unfold hasDS
    rw [if_neg (fun hab => ha hab.1)]
    exact hasDS_false_of_no_slash (b :: rest) h'

/-- `str.replace('//', '/')` is the identity on strings without `'//'`. -/
theorem replaceDS_no_ds : ∀ cs : List Char, hasDS cs = false → replaceDS cs = cs
  | [], _ => rfl
  | [_], _ => rfl
  | a :: b :: rest, h => by
    by_cases hab : a = '/' ∧ b = '/'
    · unfold hasDS at h
      rw [if_pos hab] at h
      exact absurd h (by simp)
    · unfold hasDS at h
      rw [if_neg hab] at h
      unfold replaceDS
      rw [if_neg hab, replaceDS_no_ds (b :: rest) h]

/-- `str.replace('//', '/')` after a leading slash of a slash-free tail. -/
theorem replaceDS_slash_cons (fn : List Char) (hfn : '/' ∉ fn) :
    replaceDS ('/' :: fn) = '/' :: fn := by
  cases fn with
  | nil => rfl
  | cons f r =>
    have hf : f ≠ '/' := fun hh => hfn (hh ▸ List.mem_cons_self f r)
    unfold replaceDS
    rw [if_neg (fun hc => hf hc.2),
      replaceDS_no_ds (f :: r) (hasDS_false_of_no_slash (f :: r) hfn)]

/-- The collapse performed at `src/text_to_video.py:239`, on a directory free
of doubled slashes and a slash-free filename: only the doubled slash at the
junction (directory ending in `'/'`) is collapsed. -/
theorem replaceDS_concat (fn : List Char) (hfn : '/' ∉ fn) :
    ∀ cs : List Char, hasDS cs = false →
      replaceDS (cs ++ '/' :: fn) =
        (if cs.getLast? = some '/' then cs ++ fn else cs ++ '/' :: fn) := by
  intro cs
  induction cs with
  | nil =>
    intro _
    simpa using replaceDS_slash_cons fn hfn
  | cons a rest ih =>
    intro h
    cases rest with
    | nil =>
      by_cases ha : a = '/'
      · subst ha
        show replaceDS ('/' :: '/' :: fn) = _
        unfold replaceDS
        rw [if_pos ⟨rfl, rfl⟩, replaceDS_no_ds fn (hasDS_false_of_no_slash fn hfn)]
        simp
      · show replaceDS (a :: '/' :: fn) = _
        unfold replaceDS
        rw [if_neg (fun hc => ha hc.1), replaceDS_slash_cons fn hfn]
        simp [ha]
    | cons b rest' =>
      have hab : ¬ (a = '/' ∧ b = '/') := by
        intro hc
        unfold hasDS at h
        rw [if_pos hc] at h
        exact absurd h (by simp)
      have h' : hasDS (b :: rest') = false := by
        unfold hasDS at h
        rwa [if_neg hab] at h
      show replaceDS (a :: b :: (rest' ++ '/' :: fn)) = _
      unfold replaceDS
      rw [if_neg hab]
      have ihr := ih h'
      rw [show b :: (rest' ++ '/' :: fn) = (b :: rest') ++ '/' :: fn from rfl, ihr]
      rw [show (a :: b :: rest').getLast? = (b :: rest').getLast? from
        List.getLast?_cons_cons]
      by_cases hb : (b :: rest').getLast? = some '/'
      · rw [if_pos hb, if_pos hb]
        rfl
      · rw [if_neg hb, if_neg hb]
        rfl

/-- C9 counterexample: with remote directory `a//b` (which contains a doubled
slash of its own) and filename `v`, `FTPUploader.upload` reports remote path
`a/b/v` — Python's `replace('//', '/')` collapses EVERY doubled slash — while
the claimed construction (collapse only the doubled slash introduced by the
concatenation) yields `a//b/v`. -/
theorem C9_counterexample :
    (FTPUploader_upload { videosConfig with remote_dir := "a//b" }
      ⟨{ allOkServer 0 with init_dirs := [["a"], ["a", "b"]] }, true, 1000⟩ "v" none).1
      = .uploaded "a/b/v"
    ∧ remote_path_claimed "a//b" "v" = "a//b/v"
    ∧ ("a/b/v" : String) ≠ "a//b/v" := by
  decide

/-- C9 as amended: the reported remote path is
`(remote_dir + "/" + filename).replace('//', '/')`, which collapses every
left-to-right doubled slash; when the remote directory itself contains no
doubled slash and the filename contains no slash, this coincides with
collapsing only the junction slash, so a remote directory ending in `'/'`
does not produce `'//'` in the result. -/
theorem C9_remote_path (remote_dir filename : String)
    (h1 : hasDS remote_dir.data = false) (h2 : '/' ∉ filename.data) :
    remote_path_code remote_dir filename = remote_path_claimed remote_dir filename := by
  unfold remote_path_code remote_path_claimed
  have hmain := replaceDS_concat filename.data h2 remote_dir.data h1
  by_cases hl : remote_dir.data.getLast? = some '/'
  · rw [if_pos hl] at hmain ⊢
    rw [hmain]
    apply String.ext
    rw [String.data_append]
  · rw [if_neg hl] at hmain ⊢
    rw [hmain]
    apply String.ext
    rw [String.data_append, String.data_append]
    simp

/-- C9 witness: a remote directory ending in `'/'` does not produce a doubled
slash in the reported path. -/
theorem C9_remote_path_witness :
    hasDS ("/videos/" : String).data = false
    ∧ ('/' ∉ ("v.mp4" : String).data)
    ∧ remote_path_code "/videos/" "v.mp4" = remote_path_claimed "/videos/" "v.mp4"
    ∧ remote_path_code "/videos/" "v.mp4" = "/videos/v.mp4" :=
  ⟨by decide, by decide, C9_remote_path "/videos/" "v.mp4" (by decide) (by decide), by decide⟩

/-! ## Claim theorems: model configuration -/

/-- `MODELS[DEFAULT_MODEL]` is indeed the entry substituted for the fallback in
`get_model_config`. -/
theorem MODELS_lookup_default : MODELS.lookup DEFAULT_MODEL = some cogvideox_2b := by
  rfl

/-- C10: for every model name that is not a key of the model table,
`get_model_config` silently returns the default model's configuration
(`cogvideox-2b`) instead of failing. -/
theorem C10_unknown_model_default (model_name : String)
    (h : MODELS.lookup model_name = none) :
    get_model_config model_name = cogvideox_2b := by
  unfold get_model_config
  rw [h]
  rfl

/-- C10 witness: an unknown `--model` value resolves to the default
configuration. -/
theorem C10_unknown_model_default_witness :
    MODELS.lookup "unknown-model" = none ∧ get_model_config "unknown-model" = cogvideox_2b :=
  ⟨by decide, C10_unknown_model_default "unknown-model" (by decide)⟩

end TextToVideo
